import Mathlib

/-!
Verification of the multibagger scoring engine (`score.py`) of the
ind_stock_scanner repository.

The engine takes a stock record with a `quantitative` mapping (metric name to
IEEE-float value, possibly missing/NaN/±infinity) and a `qualitative` mapping
(factor name to caller-supplied score), and returns
`(total_score, percentage_score, factor_scores)`.

We model IEEE floats by the type `XRat`: a rational number, `nan`, `+inf` or
`-inf`.  All values occurring in the program (thresholds, metric values,
scores) are exactly representable as rationals, so this embedding is exact.
Comparisons follow IEEE semantics: every comparison with `nan` is false,
`+inf` is greater than every rational, `-inf` smaller.

The Python dict `factor_scores` is modelled as an insertion-ordered
association list; assignment `d[k] = v` is `insertFS`, which overwrites the
value at an existing key in place or appends a new binding at the end,
exactly like a Python dict.
-/

namespace StockScanner

/-- A value of a quantitative metric: an IEEE double, modelled exactly. -/
inductive XRat where
  | nan : XRat
  | inf : XRat
  | ninf : XRat
  | fin : ℚ → XRat
deriving DecidableEq

/-- IEEE `x < q` for a finite threshold `q` (`nan` compares false). -/
def XRat.ltQ : XRat → ℚ → Bool
  | .fin a, q => a < q
  | .ninf, _ => true
  | _, _ => false

/-- IEEE `x > q` for a finite threshold `q` (`nan` compares false). -/
def XRat.gtQ : XRat → ℚ → Bool
  | .fin a, q => q < a
  | .inf, _ => true
  | _, _ => false

/-- IEEE `x == q` for a finite `q` (`nan` compares false). -/
def XRat.eqQ : XRat → ℚ → Bool
  | .fin a, q => a = q
  | _, _ => false

/-- Multiplication by 100, as the code's `* 100` on a float
(`nan * 100 = nan`, `±inf * 100 = ±inf`). -/
def XRat.mul100 : XRat → XRat
  | .fin a => .fin (a * 100)
  | x => x

/-- A stock record: the `quantitative` dict (`.get` returns `none` for a
missing key) and the `qualitative` dict as an insertion-ordered list. -/
structure Stock where
  quantitative : String → Option XRat
  qualitative : List (String × ℚ)

/-- Function `get_val` of `score.py`: return `default` if the key is absent (`None`)
or the stored value is NaN, otherwise the stored value (infinities pass
through: `np.isnan` is false on them). -/
def get_val (quantitative : String → Option XRat) (key : String)
    (default : XRat := .nan) : XRat :=
  match quantitative key with
  | none => default
  | some v => if v = .nan then default else v

/-- Line 18: `5 if mc < 100e9 else 4 if mc < 500e9 else 3 if mc < 2000e9 else 2 if mc < 5000e9 else 0`. -/
def market_cap_score (mc : XRat) : ℚ :=
  if mc.ltQ 100000000000 then 5 else if mc.ltQ 500000000000 then 4
  else if mc.ltQ 2000000000000 then 3 else if mc.ltQ 5000000000000 then 2 else 0

/-- Line 21: `5 if sp < 500 else 4 if sp < 1000 else 3 if sp < 2000 else 0`. -/
def stock_price_score (sp : XRat) : ℚ :=
  if sp.ltQ 500 then 5 else if sp.ltQ 1000 then 4 else if sp.ltQ 2000 then 3 else 0

/-- Line 25: `5 if eps_growth > 20 else 3 if eps_growth > 10 else 0`
(applied to the metric already multiplied by 100). -/
def eps_growth_5y_score (x : XRat) : ℚ :=
  if x.gtQ 20 then 5 else if x.gtQ 10 then 3 else 0

/-- Line 28: `5 if roe > 15 else 3 if roe > 10 else 0`. -/
def roe_score (x : XRat) : ℚ :=
  if x.gtQ 15 then 5 else if x.gtQ 10 then 3 else 0

/-- Line 31: `5 if roce > 15 else 3 if roce > 10 else 0`. -/
def roce_score (x : XRat) : ℚ :=
  if x.gtQ 15 then 5 else if x.gtQ 10 then 3 else 0

/-- Line 34: `5 if op_margin > 20 else 3 if op_margin > 10 else 0`. -/
def operating_margin_score (x : XRat) : ℚ :=
  if x.gtQ 20 then 5 else if x.gtQ 10 then 3 else 0

/-- Line 37: `5 if net_margin > 15 else 3 if net_margin > 7 else 0`. -/
def net_margin_score (x : XRat) : ℚ :=
  if x.gtQ 15 then 5 else if x.gtQ 7 then 3 else 0

/-- Line 40: `5 if de_ratio < 0.5 else 3 if de_ratio < 1 else 0`. -/
def de_ratio_score (x : XRat) : ℚ :=
  if x.ltQ (1/2) then 5 else if x.ltQ 1 then 3 else 0

/-- Line 43: `5 if interest_coverage > 3 else 3 if interest_coverage > 1.5 else 0`. -/
def interest_coverage_score (x : XRat) : ℚ :=
  if x.gtQ 3 then 5 else if x.gtQ (3/2) then 3 else 0

/-- Line 46: `5 if current_ratio > 1.5 else 3 if current_ratio > 1.2 else 0`. -/
def current_ratio_score (x : XRat) : ℚ :=
  if x.gtQ (3/2) then 5 else if x.gtQ (6/5) then 3 else 0

/-- Line 49: `5 if free_cash_flow > 0 else 0`. -/
def free_cash_flow_score (x : XRat) : ℚ :=
  if x.gtQ 0 then 5 else 0

/-- Line 52: `5 if revenue_growth > 15 else 3 if revenue_growth > 10 else 0`. -/
def revenue_growth_5y_score (x : XRat) : ℚ :=
  if x.gtQ 15 then 5 else if x.gtQ 10 then 3 else 0

/-- Line 55: `5 if profit_growth > 20 else 3 if profit_growth > 10 else 0`. -/
def profit_growth_5y_score (x : XRat) : ℚ :=
  if x.gtQ 20 then 5 else if x.gtQ 10 then 3 else 0

/-- Line 59: `5 if cash_flow_growth > 15 else 3 if cash_flow_growth > 10 else 0`.
Note: the code does NOT multiply this metric by 100 (unlike the other
growth/margin factors). -/
def cash_flow_growth_score (x : XRat) : ℚ :=
  if x.gtQ 15 then 5 else if x.gtQ 10 then 3 else 0

/-- Line 62: `5 if pe < 15 else 3 if pe < 25 else 0`. -/
def pe_ratio_score (x : XRat) : ℚ :=
  if x.ltQ 15 then 5 else if x.ltQ 25 then 3 else 0

/-- Line 65: `5 if peg < 1 else 3 if peg < 2 else 0`. -/
def peg_ratio_score (x : XRat) : ℚ :=
  if x.ltQ 1 then 5 else if x.ltQ 2 then 3 else 0

/-- Line 68: `5 if pb < 1.5 else 3 if pb < 2.5 else 0`. -/
def pb_ratio_score (x : XRat) : ℚ :=
  if x.ltQ (3/2) then 5 else if x.ltQ (5/2) then 3 else 0

/-- Line 71: `5 if ev_ebitda < 10 else 3 if ev_ebitda < 15 else 0`. -/
def ev_ebitda_score (x : XRat) : ℚ :=
  if x.ltQ 10 then 5 else if x.ltQ 15 then 3 else 0

/-- Line 74: `5 if liquidity > 100000 else 3 if liquidity > 50000 else 0`. -/
def liquidity_score (x : XRat) : ℚ :=
  if x.gtQ 100000 then 5 else if x.gtQ 50000 then 3 else 0

/-- Line 77: `5 if promoter_holding > 50 else 3 if promoter_holding > 30 else 0`. -/
def promoter_holding_score (x : XRat) : ℚ :=
  if x.gtQ 50 then 5 else if x.gtQ 30 then 3 else 0

/-- Line 80: `5 if promoter_holding_growth > 0 else 3 if promoter_holding_growth == 0 else 0`. -/
def promoter_holding_growth_score (x : XRat) : ℚ :=
  if x.gtQ 0 then 5 else if x.eqQ 0 then 3 else 0

/-- Lines 17-80: the 21 quantitative factor scores, in insertion order,
with the per-factor `get_val` defaults of the code (`0` everywhere except
`+inf` for `de_ratio`, `pe_ratio`, `peg_ratio`, `pb_ratio`, `ev_ebitda`),
and the `* 100` conversion exactly where the code applies it. -/
def quantScores (q : String → Option XRat) : List (String × ℚ) :=
  [("market_cap", market_cap_score (get_val q "market_cap" (.fin 0))),
   ("stock_price", stock_price_score (get_val q "stock_price" (.fin 0))),
   ("eps_growth_5y", eps_growth_5y_score ((get_val q "eps_growth_5y" (.fin 0)).mul100)),
   ("roe", roe_score ((get_val q "roe" (.fin 0)).mul100)),
   ("roce", roce_score ((get_val q "roce" (.fin 0)).mul100)),
   ("operating_margin", operating_margin_score ((get_val q "operating_margin" (.fin 0)).mul100)),
   ("net_margin", net_margin_score ((get_val q "net_margin" (.fin 0)).mul100)),
   ("de_ratio", de_ratio_score (get_val q "de_ratio" .inf)),
   ("interest_coverage", interest_coverage_score (get_val q "interest_coverage" (.fin 0))),
   ("current_ratio", current_ratio_score (get_val q "current_ratio" (.fin 0))),
   ("free_cash_flow", free_cash_flow_score (get_val q "free_cash_flow" (.fin 0))),
   ("revenue_growth_5y", revenue_growth_5y_score ((get_val q "revenue_growth_5y" (.fin 0)).mul100)),
   ("profit_growth_5y", profit_growth_5y_score ((get_val q "profit_growth_5y" (.fin 0)).mul100)),
   ("cash_flow_growth", cash_flow_growth_score (get_val q "cash_flow_growth" (.fin 0))),
   ("pe_ratio", pe_ratio_score (get_val q "pe_ratio" .inf)),
   ("peg_ratio", peg_ratio_score (get_val q "peg_ratio" .inf)),
   ("pb_ratio", pb_ratio_score (get_val q "pb_ratio" .inf)),
   ("ev_ebitda", ev_ebitda_score (get_val q "ev_ebitda" .inf)),
   ("liquidity", liquidity_score (get_val q "liquidity" (.fin 0))),
   ("promoter_holding", promoter_holding_score (get_val q "promoter_holding" (.fin 0))),
   ("promoter_holding_growth", promoter_holding_growth_score (get_val q "promoter_holding_growth" (.fin 0)))]

/-- Python dict assignment `d[k] = v` on an insertion-ordered association
list: overwrite in place if the key exists, else append. -/
def insertFS : List (String × ℚ) → String → ℚ → List (String × ℚ)
  | [], k, v => [(k, v)]
  | (k', v') :: t, k, v =>
      if k' = k then (k, v) :: t else (k', v') :: insertFS t k v

/-- Lines 84-86: copy every qualitative entry into `factor_scores` verbatim. -/
def applyQual (fs : List (String × ℚ)) (qualitative : List (String × ℚ)) :
    List (String × ℚ) :=
  qualitative.foldl (fun acc kv => insertFS acc kv.1 kv.2) fs

/-- Function `multibagger_score_two_dim` of `score.py`: returns
`(total_score, percentage_score, factor_scores)`. -/
def multibagger_score_two_dim (stock : Stock) : ℚ × ℚ × List (String × ℚ) :=
  let factor_scores := applyQual (quantScores stock.quantitative) stock.qualitative
  let total_score := (factor_scores.map Prod.snd).sum
  let max_possible_score : ℚ := (factor_scores.length : ℚ) * 5
  let percentage_score :=
    if max_possible_score > 0 then total_score / max_possible_score * 100 else 0
  (total_score, percentage_score, factor_scores)

/-- The 21 quantitative factor names, in insertion order. -/
def quantNames : List String :=
  ["market_cap", "stock_price", "eps_growth_5y", "roe", "roce",
   "operating_margin", "net_margin", "de_ratio", "interest_coverage",
   "current_ratio", "free_cash_flow", "revenue_growth_5y", "profit_growth_5y",
   "cash_flow_growth", "pe_ratio", "peg_ratio", "pb_ratio", "ev_ebitda",
   "liquidity", "promoter_holding", "promoter_holding_growth"]

/-- The stock record with every quantitative metric absent and no
qualitative overrides. -/
def emptyStock : Stock :=
  { quantitative := fun _ => none, qualitative := [] }

/-- The 19 quantitative factors whose scores range over at most the set 0, 3, 5. -/
def ternaryQuantNames : List String :=
  ["eps_growth_5y", "roe", "roce", "operating_margin", "net_margin", "de_ratio",
   "interest_coverage", "current_ratio", "free_cash_flow", "revenue_growth_5y",
   "profit_growth_5y", "cash_flow_growth", "pe_ratio", "peg_ratio", "pb_ratio",
   "ev_ebitda", "liquidity", "promoter_holding", "promoter_holding_growth"]

/-- Scoring rule that claim C3 asserts for cash_flow_growth, following the
spec's words (the fractional value is multiplied by 100 before the threshold
comparison).  Compare `cash_flow_growth_score`, which the code applies to the
raw, unscaled value. -/
def cash_flow_growth_score_claimed (v : ℚ) : ℚ :=
  if 100 * v > 15 then 5 else if 100 * v > 10 then 3 else 0

/-- A stock whose only present metric is market_cap = +infinity. -/
def infMarketCapStock : Stock :=
  { quantitative := fun k => if k = "market_cap" then some XRat.inf else none,
    qualitative := [] }

/-- A stock whose only present metric is de_ratio = 0.5 exactly. -/
def deHalfStock : Stock :=
  { quantitative := fun k => if k = "de_ratio" then some (XRat.fin (1/2)) else none,
    qualitative := [] }

/-- A stock whose only present metric is de_ratio = 0.49999. -/
def deAlmostHalfStock : Stock :=
  { quantitative := fun k => if k = "de_ratio" then some (XRat.fin (49999/100000)) else none,
    qualitative := [] }

/-- A stock whose only present metric is cash_flow_growth = 0.2 (20 percent in
the decimal form the data layer uses for growth metrics). -/
def cfgFifthStock : Stock :=
  { quantitative := fun k => if k = "cash_flow_growth" then some (XRat.fin (1/5)) else none,
    qualitative := [] }

/-- A stock whose only present metric is cash_flow_growth = 20. -/
def cfgTwentyStock : Stock :=
  { quantitative := fun k => if k = "cash_flow_growth" then some (XRat.fin 20) else none,
    qualitative := [] }

/-- Empty metrics with a qualitative override colliding with the quantitative
factor name market_cap, carrying the out-of-range value 99. -/
def overrideMarketCapStock : Stock :=
  { quantitative := fun _ => none, qualitative := [("market_cap", 99)] }

/-- Empty metrics with the single non-colliding qualitative entry moat = 4. -/
def moatStock : Stock :=
  { quantitative := fun _ => none, qualitative := [("moat", 4)] }

/-- Empty metrics with one colliding override (market_cap) and one new
qualitative factor (moat). -/
def overrideAndNewStock : Stock :=
  { quantitative := fun _ => none, qualitative := [("market_cap", 1), ("moat", 2)] }


theorem quantScores_keys (q : String → Option XRat) :
    (quantScores q).map Prod.fst = quantNames := rfl

theorem quantScores_length (q : String → Option XRat) :
    (quantScores q).length = 21 := rfl

theorem applyQual_nil (l : List (String × ℚ)) : applyQual l [] = l := rfl

theorem applyQual_cons (l : List (String × ℚ)) (k : String) (v : ℚ)
    (qs : List (String × ℚ)) :
    applyQual l ((k, v) :: qs) = applyQual (insertFS l k v) qs := rfl

theorem lookup_cons_of_ne (t : List (String × ℚ)) (k k₁ : String) (v₁ : ℚ)
    (h : k ≠ k₁) : ((k₁, v₁) :: t).lookup k = t.lookup k := by
  rw [List.lookup_cons, beq_eq_false_iff_ne.mpr h]

theorem insertFS_of_not_mem (l : List (String × ℚ)) (k : String) (v : ℚ)
    (h : k ∉ l.map Prod.fst) : insertFS l k v = l ++ [(k, v)] := by
  induction l with
  | nil => rfl
  | cons hd t ih =>
      obtain ⟨k₁, v₁⟩ := hd
      simp only [List.map_cons, List.mem_cons, not_or] at h
      simp [insertFS, Ne.symm h.1, ih h.2]

theorem keys_insertFS (l : List (String × ℚ)) (k : String) (v : ℚ) :
    (insertFS l k v).map Prod.fst =
      if k ∈ l.map Prod.fst then l.map Prod.fst else l.map Prod.fst ++ [k] := by
  induction l with
  | nil => simp [insertFS]
  | cons hd t ih =>
      obtain ⟨k₁, v₁⟩ := hd
      by_cases hk : k₁ = k
      · subst hk
        simp [insertFS]
      · simp only [insertFS, if_neg hk, List.map_cons, ih, List.mem_cons]
        by_cases hm : k ∈ t.map Prod.fst
        · simp [hm, Ne.symm hk]
        · simp [hm, Ne.symm hk]

theorem length_insertFS (l : List (String × ℚ)) (k : String) (v : ℚ) :
    (insertFS l k v).length =
      if k ∈ l.map Prod.fst then l.length else l.length + 1 := by
  have h := congrArg List.length (keys_insertFS l k v)
  simp only [List.length_map] at h
  rw [h]
  by_cases hm : k ∈ l.map Prod.fst
  · simp [hm]
  · simp [hm]

theorem length_le_insertFS (l : List (String × ℚ)) (k : String) (v : ℚ) :
    l.length ≤ (insertFS l k v).length := by
  rw [length_insertFS]
  by_cases hm : k ∈ l.map Prod.fst
  · simp [hm]
  · simp [hm]

theorem lookup_insertFS_self (l : List (String × ℚ)) (k : String) (v : ℚ) :
    (insertFS l k v).lookup k = some v := by
  induction l with
  | nil => simp [insertFS]
  | cons hd t ih =>
      obtain ⟨k₁, v₁⟩ := hd
      by_cases hk : k₁ = k
      · subst hk
        simp [insertFS]
      · simp only [insertFS, if_neg hk]
        rw [lookup_cons_of_ne _ _ _ _ (Ne.symm hk)]
        exact ih

theorem lookup_insertFS_ne (l : List (String × ℚ)) (k k' : String) (v : ℚ)
    (h : k ≠ k') : (insertFS l k' v).lookup k = l.lookup k := by
  induction l with
  | nil => simp only [insertFS]; rw [lookup_cons_of_ne _ _ _ _ h]
  | cons hd t ih =>
      obtain ⟨k₁, v₁⟩ := hd
      by_cases hk : k₁ = k'
      · subst hk
        simp only [insertFS, eq_self_iff_true, if_true]
        rw [lookup_cons_of_ne _ _ _ _ h, lookup_cons_of_ne _ _ _ _ h]
      · simp only [insertFS, if_neg hk]
        by_cases hk1 : k = k₁
        · subst hk1
          simp [List.lookup_cons]
        · rw [lookup_cons_of_ne _ _ _ _ hk1, lookup_cons_of_ne _ _ _ _ hk1, ih]

theorem lookup_applyQual_of_not_mem (qual : List (String × ℚ))
    (l : List (String × ℚ)) (k : String) (h : k ∉ qual.map Prod.fst) :
    (applyQual l qual).lookup k = l.lookup k := by
  induction qual generalizing l with
  | nil => rfl
  | cons hd qs ih =>
      obtain ⟨k₁, v₁⟩ := hd
      simp only [List.map_cons, List.mem_cons, not_or] at h
      rw [applyQual_cons, ih _ h.2, lookup_insertFS_ne _ _ _ _ h.1]

theorem length_le_applyQual (qual : List (String × ℚ)) (l : List (String × ℚ)) :
    l.length ≤ (applyQual l qual).length := by
  induction qual generalizing l with
  | nil => exact le_refl _
  | cons hd qs ih =>
      obtain ⟨k₁, v₁⟩ := hd
      rw [applyQual_cons]
      exact le_trans (length_le_insertFS l k₁ v₁) (ih (insertFS l k₁ v₁))

theorem lookup_applyQual_nodup (qual : List (String × ℚ))
    (l : List (String × ℚ)) (k : String) (v : ℚ)
    (hnd : (qual.map Prod.fst).Nodup) (hmem : (k, v) ∈ qual) :
    (applyQual l qual).lookup k = some v := by
  induction qual generalizing l with
  | nil => simp at hmem
  | cons hd qs ih =>
      obtain ⟨k₁, v₁⟩ := hd
      simp only [List.map_cons, List.nodup_cons] at hnd
      rw [applyQual_cons]
      rcases List.mem_cons.mp hmem with heq | hmem'
      · injection heq with hk hv
        subst hk; subst hv
        rw [lookup_applyQual_of_not_mem qs _ k hnd.1]
        exact lookup_insertFS_self l k v
      · exact ih _ hnd.2 hmem'

theorem mem_keys_insertFS (l : List (String × ℚ)) (k k' : String) (v : ℚ)
    (h : k ∈ l.map Prod.fst) : k ∈ (insertFS l k' v).map Prod.fst := by
  rw [keys_insertFS]
  by_cases hm : k' ∈ l.map Prod.fst
  · simpa [hm] using h
  · simp [hm, h]

theorem count_keys_insertFS (l : List (String × ℚ)) (k k' : String) (v : ℚ)
    (h : k ∈ l.map Prod.fst) :
    ((insertFS l k' v).map Prod.fst).count k = (l.map Prod.fst).count k := by
  rw [keys_insertFS]
  by_cases hm : k' ∈ l.map Prod.fst
  · simp [hm]
  · have hne : k' ≠ k := fun he => hm (he ▸ h)
    simp [hm, List.count_append, List.count_singleton, hne]

theorem count_keys_applyQual (qual : List (String × ℚ))
    (l : List (String × ℚ)) (k : String) (h : k ∈ l.map Prod.fst) :
    ((applyQual l qual).map Prod.fst).count k = (l.map Prod.fst).count k := by
  induction qual generalizing l with
  | nil => rfl
  | cons hd qs ih =>
      obtain ⟨k₁, v₁⟩ := hd
      rw [applyQual_cons, ih _ (mem_keys_insertFS l k k₁ v₁ h),
        count_keys_insertFS l k k₁ v₁ h]

theorem contains_keys_eq (l : List String) (a : String) :
    l.contains a = decide (a ∈ l) := by
  induction l with
  | nil => simp
  | cons b t ih =>
      by_cases hb : a = b
      · simp [hb]
      · simp [List.contains_cons, hb, ih]

theorem length_applyQual_nodup (qual : List (String × ℚ))
    (l : List (String × ℚ)) (hnd : (qual.map Prod.fst).Nodup) :
    (applyQual l qual).length =
      l.length + (qual.filter (fun p => !((l.map Prod.fst).contains p.1))).length := by
  induction qual generalizing l with
  | nil => simp [applyQual_nil]
  | cons hd qs ih =>
      obtain ⟨k₁, v₁⟩ := hd
      simp only [List.map_cons, List.nodup_cons] at hnd
      rw [applyQual_cons, ih _ hnd.2]
      by_cases hm : k₁ ∈ l.map Prod.fst
      · have hlen : (insertFS l k₁ v₁).length = l.length := by
          rw [length_insertFS]; simp [hm]
        have hkeys : (insertFS l k₁ v₁).map Prod.fst = l.map Prod.fst := by
          rw [keys_insertFS]; simp [hm]
        have hfilter :
            List.filter (fun p => !((l.map Prod.fst).contains p.1))
                ((k₁, v₁) :: qs) =
              List.filter (fun p => !((l.map Prod.fst).contains p.1)) qs := by
          simp [List.filter_cons, contains_keys_eq, hm]
        rw [hlen, hkeys, hfilter]
      · have hlen : (insertFS l k₁ v₁).length = l.length + 1 := by
          rw [length_insertFS]; simp [hm]
        have hkeys : (insertFS l k₁ v₁).map Prod.fst = l.map Prod.fst ++ [k₁] := by
          rw [keys_insertFS]; simp [hm]
        have hfilter :
            List.filter (fun p => !(((insertFS l k₁ v₁).map Prod.fst).contains p.1)) qs =
              List.filter (fun p => !((l.map Prod.fst).contains p.1)) qs := by
          apply List.filter_congr
          intro p hp
          have hpk : p.1 ≠ k₁ := by
            intro he
            exact hnd.1 (he ▸ List.mem_map_of_mem Prod.fst hp)
          simp [hkeys, contains_keys_eq, hpk]
        have hfilter2 :
            List.filter (fun p => !((l.map Prod.fst).contains p.1))
                ((k₁, v₁) :: qs) =
              (k₁, v₁) :: List.filter (fun p => !((l.map Prod.fst).contains p.1)) qs := by
          simp [List.filter_cons, contains_keys_eq, hm]
        rw [hlen, hfilter, hfilter2]
        simp [Nat.add_assoc, Nat.add_comm 1]

theorem pct_formula (fs : List (String × ℚ)) (h : 0 < fs.length) :
    (if ((fs.length : ℚ) * 5 > 0) then ((fs.map Prod.snd).sum) / ((fs.length : ℚ) * 5) * 100 else 0) =
      (if fs.length = 0 then 0 else 100 * (fs.map Prod.snd).sum / (5 * (fs.length : ℚ))) := by
  have h0 : (0:ℚ) < (fs.length : ℚ) := by exact_mod_cast h
  rw [if_pos (by nlinarith), if_neg (Nat.pos_iff_ne_zero.mp h)]
  ring

theorem breakdown_eq (stock : Stock) :
    (multibagger_score_two_dim stock).2.2 =
      applyQual (quantScores stock.quantitative) stock.qualitative := rfl

theorem breakdown_length_ge (stock : Stock) :
    21 ≤ ((multibagger_score_two_dim stock).2.2).length := by
  rw [breakdown_eq]
  have h := length_le_applyQual stock.qualitative (quantScores stock.quantitative)
  rwa [quantScores_length] at h

/-- C2: the returned total is the sum of the breakdown values, and the returned
percentage equals 100 * total / (5 * number of factors), with the empty-breakdown
guard returning 0 (the guard is never taken: the breakdown always has at least
21 entries). -/
theorem total_and_percentage_aggregation (stock : Stock) :
    (multibagger_score_two_dim stock).1 =
        (((multibagger_score_two_dim stock).2.2).map Prod.snd).sum ∧
      (multibagger_score_two_dim stock).2.1 =
        (if ((multibagger_score_two_dim stock).2.2).length = 0 then 0
         else 100 * (multibagger_score_two_dim stock).1 /
           (5 * (((multibagger_score_two_dim stock).2.2).length : ℚ))) := by
  refine ⟨rfl, ?_⟩
  have hlen : 0 < ((multibagger_score_two_dim stock).2.2).length :=
    lt_of_lt_of_le (by norm_num) (breakdown_length_ge stock)
  exact pct_formula (applyQual (quantScores stock.quantitative) stock.qualitative) hlen

/-- C8: the scoring function is total on the modelled input space (every metric
absent, NaN or any extended-real value; any qualitative mapping): it always
returns a (total, percentage, breakdown) triple. -/
theorem scoring_is_total (stock : Stock) :
    ∃ t p fs, multibagger_score_two_dim stock = (t, p, fs) := ⟨_, _, _, rfl⟩

theorem multibagger_emptyStock_eval :
    multibagger_score_two_dim emptyStock =
      (13, 260/21,
       [("market_cap", 5), ("stock_price", 5), ("eps_growth_5y", 0), ("roe", 0), ("roce", 0),
        ("operating_margin", 0), ("net_margin", 0), ("de_ratio", 0), ("interest_coverage", 0),
        ("current_ratio", 0), ("free_cash_flow", 0), ("revenue_growth_5y", 0),
        ("profit_growth_5y", 0), ("cash_flow_growth", 0), ("pe_ratio", 0), ("peg_ratio", 0),
        ("pb_ratio", 0), ("ev_ebitda", 0), ("liquidity", 0), ("promoter_holding", 0),
        ("promoter_holding_growth", 3)]) := by
  simp [multibagger_score_two_dim, quantScores, applyQual, emptyStock, get_val,
    market_cap_score, stock_price_score, eps_growth_5y_score, roe_score, roce_score,
    operating_margin_score, net_margin_score, de_ratio_score, interest_coverage_score,
    current_ratio_score, free_cash_flow_score, revenue_growth_5y_score,
    profit_growth_5y_score, cash_flow_growth_score, pe_ratio_score, peg_ratio_score,
    pb_ratio_score, ev_ebitda_score, liquidity_score, promoter_holding_score,
    promoter_holding_growth_score, XRat.ltQ, XRat.gtQ, XRat.eqQ, XRat.mul100]
  norm_num

/-- C1 counterexample: with every metric absent and no qualitative overrides the
total is 13, not 10 (promoter_holding_growth defaults to 0, which satisfies its
middle tier `== 0` and scores 3). -/
theorem empty_scoring_total_ne_ten :
    (multibagger_score_two_dim emptyStock).1 ≠ 10 := by
  rw [multibagger_emptyStock_eval]
  norm_num

/-- C1 amended: with every metric absent and no qualitative overrides,
total = 13 (market_cap 5, stock_price 5, promoter_holding_growth 3, the other 18
factors 0) and percentage = 13/105*100. -/
theorem empty_scoring_eval :
    (multibagger_score_two_dim emptyStock).1 = 13 ∧
    (multibagger_score_two_dim emptyStock).2.1 = 13 / 105 * 100 ∧
    (multibagger_score_two_dim emptyStock).2.2 =
      [("market_cap", 5), ("stock_price", 5), ("eps_growth_5y", 0), ("roe", 0), ("roce", 0),
       ("operating_margin", 0), ("net_margin", 0), ("de_ratio", 0), ("interest_coverage", 0),
       ("current_ratio", 0), ("free_cash_flow", 0), ("revenue_growth_5y", 0),
       ("profit_growth_5y", 0), ("cash_flow_growth", 0), ("pe_ratio", 0), ("peg_ratio", 0),
       ("pb_ratio", 0), ("ev_ebitda", 0), ("liquidity", 0), ("promoter_holding", 0),
       ("promoter_holding_growth", 3)] := by
  rw [multibagger_emptyStock_eval]
  norm_num

/-- C9: when promoter_holding_growth is absent or NaN, its factor score is 3:
the substituted default 0 hits the `== 0` middle tier.  Stated both for the
quantitative factor list and for the returned breakdown (when no qualitative
override replaces the entry). -/
theorem promoter_holding_growth_default_scores_three :
    (∀ q : String → Option XRat,
        q "promoter_holding_growth" = none ∨ q "promoter_holding_growth" = some XRat.nan →
        (quantScores q).lookup "promoter_holding_growth" = some 3) ∧
    (∀ stock : Stock,
        (stock.quantitative "promoter_holding_growth" = none ∨
          stock.quantitative "promoter_holding_growth" = some XRat.nan) →
        "promoter_holding_growth" ∉ stock.qualitative.map Prod.fst →
        ((multibagger_score_two_dim stock).2.2).lookup "promoter_holding_growth" = some 3) := by
  have h1 : ∀ q : String → Option XRat,
      q "promoter_holding_growth" = none ∨ q "promoter_holding_growth" = some XRat.nan →
      (quantScores q).lookup "promoter_holding_growth" = some 3 := by
    intro q h
    have hl : (quantScores q).lookup "promoter_holding_growth" =
        some (promoter_holding_growth_score (get_val q "promoter_holding_growth" (.fin 0))) := rfl
    have hg : get_val q "promoter_holding_growth" (.fin 0) = .fin 0 := by
      rcases h with h | h <;> simp [get_val, h]
    rw [hl, hg]
    simp [promoter_holding_growth_score, XRat.gtQ, XRat.eqQ]
  refine ⟨h1, fun stock h hnm => ?_⟩
  rw [breakdown_eq, lookup_applyQual_of_not_mem _ _ _ hnm]
  exact h1 stock.quantitative h

theorem promoter_holding_growth_default_scores_three_witness :
    (quantScores (fun _ => none)).lookup "promoter_holding_growth" = some 3 :=
  promoter_holding_growth_default_scores_three.1 (fun _ => none) (Or.inl rfl)

/-- C4 counterexample: with market_cap = +infinity the breakdown scores
market_cap as 0 (the infinity passes through and fails every `<` tier), while
substituting the per-factor default 0 — as the claim asserts happens for
infinities — would give 5, as the absent-metric case shows. -/
theorem infinite_market_cap_not_substituted :
    ((multibagger_score_two_dim infMarketCapStock).2.2).lookup "market_cap" = some 0 ∧
    ((multibagger_score_two_dim emptyStock).2.2).lookup "market_cap" = some 5 ∧
    (0 : ℚ) ≠ 5 := by
  refine ⟨?_, ?_, by norm_num⟩
  · have hl : ((multibagger_score_two_dim infMarketCapStock).2.2).lookup "market_cap" =
        some (market_cap_score (get_val infMarketCapStock.quantitative "market_cap" (.fin 0))) := rfl
    rw [hl]
    simp [infMarketCapStock, get_val, market_cap_score, XRat.ltQ]
  · rw [multibagger_emptyStock_eval]
    rfl

/-- C4 amended: `get_val` substitutes the per-factor default exactly when the
metric is absent (None) or NaN; any other value — including +infinity and
-infinity — passes through unchanged to the threshold comparison. -/
theorem get_val_default_policy (q : String → Option XRat) (k : String) (d : XRat) :
    (q k = none → get_val q k d = d) ∧
    (q k = some XRat.nan → get_val q k d = d) ∧
    (∀ v : XRat, q k = some v → v ≠ XRat.nan → get_val q k d = v) := by
  refine ⟨fun h => ?_, fun h => ?_, fun v h hv => ?_⟩
  · simp [get_val, h]
  · simp [get_val, h]
  · simp [get_val, h, hv]

theorem get_val_default_policy_witness :
    get_val (fun _ => none) "market_cap" (XRat.fin 0) = XRat.fin 0 ∧
    get_val (fun _ => some XRat.inf) "de_ratio" XRat.inf = XRat.inf :=
  ⟨(get_val_default_policy (fun _ => none) "market_cap" (XRat.fin 0)).1 rfl,
   (get_val_default_policy (fun _ => some XRat.inf) "de_ratio" XRat.inf).2.2
     XRat.inf rfl (by simp)⟩

/-- C5 counterexample: de_ratio exactly 0.5 scores 3 (it fails the strict
`< 0.5` top tier but satisfies the `< 1` middle tier), not 0 as claimed. -/
theorem de_ratio_half_scores_three :
    ((multibagger_score_two_dim deHalfStock).2.2).lookup "de_ratio" = some 3 ∧
    (3 : ℚ) ≠ 0 := by
  refine ⟨?_, by norm_num⟩
  have hl : ((multibagger_score_two_dim deHalfStock).2.2).lookup "de_ratio" =
      some (de_ratio_score (get_val deHalfStock.quantitative "de_ratio" XRat.inf)) := rfl
  rw [hl]
  have hg : get_val deHalfStock.quantitative "de_ratio" XRat.inf = XRat.fin (1/2) := by
    simp [deHalfStock, get_val]
  rw [hg]
  norm_num [de_ratio_score, XRat.ltQ]

/-- C5 amended: de_ratio = 0.5 scores 3 (middle tier `< 1`), not 5 and not 0;
de_ratio = 0.49999 scores 5.  Stated for any stock whose qualitative overrides
do not replace the de_ratio entry. -/
theorem de_ratio_boundary_scores :
    (∀ stock : Stock, stock.quantitative "de_ratio" = some (XRat.fin (1/2)) →
        "de_ratio" ∉ stock.qualitative.map Prod.fst →
        ((multibagger_score_two_dim stock).2.2).lookup "de_ratio" = some 3) ∧
    (∀ stock : Stock, stock.quantitative "de_ratio" = some (XRat.fin (49999/100000)) →
        "de_ratio" ∉ stock.qualitative.map Prod.fst →
        ((multibagger_score_two_dim stock).2.2).lookup "de_ratio" = some 5) := by
  constructor <;> intro stock h hnm <;>
    rw [breakdown_eq, lookup_applyQual_of_not_mem _ _ _ hnm] <;>
    have hl : (quantScores stock.quantitative).lookup "de_ratio" =
      some (de_ratio_score (get_val stock.quantitative "de_ratio" XRat.inf)) := rfl <;>
    rw [hl] <;>
    simp [get_val, h, de_ratio_score, XRat.ltQ] <;> norm_num

theorem de_ratio_boundary_scores_witness :
    ((multibagger_score_two_dim deHalfStock).2.2).lookup "de_ratio" = some 3 ∧
    ((multibagger_score_two_dim deAlmostHalfStock).2.2).lookup "de_ratio" = some 5 :=
  ⟨de_ratio_boundary_scores.1 deHalfStock rfl (by simp [deHalfStock]),
   de_ratio_boundary_scores.2 deAlmostHalfStock rfl (by simp [deAlmostHalfStock])⟩

/-- C3 counterexample: with cash_flow_growth = 0.2 (i.e. 20 percent in decimal
form) the code scores the factor 0, because it compares the raw 0.2 against the
thresholds 15 and 10 without the ×100 conversion; the claimed rule would score
it 5. -/
theorem cash_flow_growth_not_scaled :
    ((multibagger_score_two_dim cfgFifthStock).2.2).lookup "cash_flow_growth" = some 0 ∧
    cash_flow_growth_score_claimed (1/5) = 5 ∧
    (0 : ℚ) ≠ 5 := by
  refine ⟨?_, ?_, by norm_num⟩
  · have hl : ((multibagger_score_two_dim cfgFifthStock).2.2).lookup "cash_flow_growth" =
        some (cash_flow_growth_score (get_val cfgFifthStock.quantitative "cash_flow_growth" (.fin 0))) := rfl
    rw [hl]
    have hg : get_val cfgFifthStock.quantitative "cash_flow_growth" (.fin 0) = XRat.fin (1/5) := by
      simp [cfgFifthStock, get_val]
    rw [hg]
    norm_num [cash_flow_growth_score, XRat.gtQ]
  · norm_num [cash_flow_growth_score_claimed]

/-- C3 amended: the cash_flow_growth metric is compared raw, without the ×100
conversion the other growth/margin factors get: a present finite value v scores
5 if v > 15, 3 if v > 10 and 0 otherwise.  Stated for any stock whose
qualitative overrides do not replace the cash_flow_growth entry. -/
theorem cash_flow_growth_raw_thresholds (stock : Stock) (v : ℚ)
    (h : stock.quantitative "cash_flow_growth" = some (XRat.fin v))
    (hnm : "cash_flow_growth" ∉ stock.qualitative.map Prod.fst) :
    ((multibagger_score_two_dim stock).2.2).lookup "cash_flow_growth" =
      some (if v > 15 then 5 else if v > 10 then 3 else 0) := by
  rw [breakdown_eq, lookup_applyQual_of_not_mem _ _ _ hnm]
  have hl : (quantScores stock.quantitative).lookup "cash_flow_growth" =
      some (cash_flow_growth_score (get_val stock.quantitative "cash_flow_growth" (.fin 0))) := rfl
  rw [hl]
  have hg : get_val stock.quantitative "cash_flow_growth" (.fin 0) = XRat.fin v := by
    simp [get_val, h]
  rw [hg]
  simp [cash_flow_growth_score, XRat.gtQ]

theorem cash_flow_growth_raw_thresholds_witness :
    ((multibagger_score_two_dim cfgTwentyStock).2.2).lookup "cash_flow_growth" = some 5 := by
  have h := cash_flow_growth_raw_thresholds cfgTwentyStock 20 rfl (by simp [cfgTwentyStock])
  rw [h]
  norm_num

theorem ternary_gt_range (a b : ℚ) (x : XRat) :
    (if x.gtQ a then (5:ℚ) else if x.gtQ b then 3 else 0) = 0 ∨
    (if x.gtQ a then (5:ℚ) else if x.gtQ b then 3 else 0) = 3 ∨
    (if x.gtQ a then (5:ℚ) else if x.gtQ b then 3 else 0) = 5 := by
  split_ifs <;> norm_num

theorem ternary_lt_range (a b : ℚ) (x : XRat) :
    (if x.ltQ a then (5:ℚ) else if x.ltQ b then 3 else 0) = 0 ∨
    (if x.ltQ a then (5:ℚ) else if x.ltQ b then 3 else 0) = 3 ∨
    (if x.ltQ a then (5:ℚ) else if x.ltQ b then 3 else 0) = 5 := by
  split_ifs <;> norm_num

theorem market_cap_score_range (x : XRat) :
    market_cap_score x = 0 ∨ market_cap_score x = 2 ∨ market_cap_score x = 3 ∨
      market_cap_score x = 4 ∨ market_cap_score x = 5 := by
  simp only [market_cap_score]; split_ifs <;> norm_num

theorem stock_price_score_range (x : XRat) :
    stock_price_score x = 0 ∨ stock_price_score x = 3 ∨ stock_price_score x = 4 ∨
      stock_price_score x = 5 := by
  simp only [stock_price_score]; split_ifs <;> norm_num

theorem free_cash_flow_score_range (x : XRat) :
    free_cash_flow_score x = 0 ∨ free_cash_flow_score x = 3 ∨ free_cash_flow_score x = 5 := by
  simp only [free_cash_flow_score]; split_ifs <;> norm_num

theorem promoter_holding_growth_score_range (x : XRat) :
    promoter_holding_growth_score x = 0 ∨ promoter_holding_growth_score x = 3 ∨
      promoter_holding_growth_score x = 5 := by
  simp only [promoter_holding_growth_score]; split_ifs <;> norm_num

/-- C6 amended: when no qualitative override key collides with a quantitative
factor name, the breakdown has exactly one entry per quantitative factor name
and the per-factor scores lie in the stated sets. -/
theorem quant_factor_entries (stock : Stock)
    (h : ∀ k ∈ stock.qualitative.map Prod.fst, k ∉ quantNames) :
    (∀ name ∈ quantNames,
        (((multibagger_score_two_dim stock).2.2).map Prod.fst).count name = 1) ∧
    (∀ s : ℚ, ((multibagger_score_two_dim stock).2.2).lookup "market_cap" = some s →
        s = 0 ∨ s = 2 ∨ s = 3 ∨ s = 4 ∨ s = 5) ∧
    (∀ s : ℚ, ((multibagger_score_two_dim stock).2.2).lookup "stock_price" = some s →
        s = 0 ∨ s = 3 ∨ s = 4 ∨ s = 5) ∧
    (∀ name ∈ ternaryQuantNames, ∀ s : ℚ,
        ((multibagger_score_two_dim stock).2.2).lookup name = some s →
        s = 0 ∨ s = 3 ∨ s = 5) := by
  have hnm : ∀ name ∈ quantNames, name ∉ stock.qualitative.map Prod.fst :=
    fun name hn hmem => h _ hmem hn
  refine ⟨?_, ?_, ?_, ?_⟩
  · intro name hname
    rw [breakdown_eq, count_keys_applyQual _ _ _ (by rw [quantScores_keys]; exact hname),
      quantScores_keys]
    exact List.count_eq_one_of_mem (by decide) hname
  · intro s hs
    rw [breakdown_eq, lookup_applyQual_of_not_mem _ _ _ (hnm "market_cap" (by decide))] at hs
    obtain rfl := Option.some.inj hs.symm
    exact market_cap_score_range _
  · intro s hs
    rw [breakdown_eq, lookup_applyQual_of_not_mem _ _ _ (hnm "stock_price" (by decide))] at hs
    obtain rfl := Option.some.inj hs.symm
    exact stock_price_score_range _
  · intro name hname s hs
    have hsub : name ∈ quantNames := by fin_cases hname <;> decide
    rw [breakdown_eq, lookup_applyQual_of_not_mem _ _ _ (hnm name hsub)] at hs
    fin_cases hname
    · obtain rfl := Option.some.inj hs.symm; exact ternary_gt_range 20 10 _
    · obtain rfl := Option.some.inj hs.symm; exact ternary_gt_range 15 10 _
    · obtain rfl := Option.some.inj hs.symm; exact ternary_gt_range 15 10 _
    · obtain rfl := Option.some.inj hs.symm; exact ternary_gt_range 20 10 _
    · obtain rfl := Option.some.inj hs.symm; exact ternary_gt_range 15 7 _
    · obtain rfl := Option.some.inj hs.symm; exact ternary_lt_range (1/2) 1 _
    · obtain rfl := Option.some.inj hs.symm; exact ternary_gt_range 3 (3/2) _
    · obtain rfl := Option.some.inj hs.symm; exact ternary_gt_range (3/2) (6/5) _
    · obtain rfl := Option.some.inj hs.symm; exact free_cash_flow_score_range _
    · obtain rfl := Option.some.inj hs.symm; exact ternary_gt_range 15 10 _
    · obtain rfl := Option.some.inj hs.symm; exact ternary_gt_range 20 10 _
    · obtain rfl := Option.some.inj hs.symm; exact ternary_gt_range 15 10 _
    · obtain rfl := Option.some.inj hs.symm; exact ternary_lt_range 15 25 _
    · obtain rfl := Option.some.inj hs.symm; exact ternary_lt_range 1 2 _
    · obtain rfl := Option.some.inj hs.symm; exact ternary_lt_range (3/2) (5/2) _
    · obtain rfl := Option.some.inj hs.symm; exact ternary_lt_range 10 15 _
    · obtain rfl := Option.some.inj hs.symm; exact ternary_gt_range 100000 50000 _
    · obtain rfl := Option.some.inj hs.symm; exact ternary_gt_range 50 30 _
    · obtain rfl := Option.some.inj hs.symm; exact promoter_holding_growth_score_range _

/-- C6 counterexample: a qualitative override whose key collides with a
quantitative factor name replaces that factor's score with the caller's
arbitrary value, so the breakdown entry for market_cap can be 99, outside the
claimed score set 0, 2, 3, 4, 5. -/
theorem override_escapes_score_range :
    ((multibagger_score_two_dim overrideMarketCapStock).2.2).lookup "market_cap" = some 99 ∧
    ¬((99 : ℚ) = 0 ∨ (99 : ℚ) = 2 ∨ (99 : ℚ) = 3 ∨ (99 : ℚ) = 4 ∨ (99 : ℚ) = 5) := by
  refine ⟨?_, by norm_num⟩
  rw [breakdown_eq]
  exact lookup_applyQual_nodup _ _ _ _ (by simp [overrideMarketCapStock])
    (by simp [overrideMarketCapStock])

theorem quant_factor_entries_witness :
    (((multibagger_score_two_dim emptyStock).2.2).map Prod.fst).count "roe" = 1 :=
  (quant_factor_entries emptyStock (by simp [emptyStock])).1 "roe" (by decide)

/-- C7: every qualitative entry is copied into the breakdown verbatim (no
transformation, no range validation), and scoring an empty metrics record with
the single override moat = 4 yields a breakdown containing moat = 4 and
22 factors. -/
theorem qualitative_passthrough :
    (∀ stock : Stock, (stock.qualitative.map Prod.fst).Nodup →
        ∀ (k : String) (v : ℚ), (k, v) ∈ stock.qualitative →
        ((multibagger_score_two_dim stock).2.2).lookup k = some v) ∧
    ((multibagger_score_two_dim moatStock).2.2).lookup "moat" = some 4 ∧
    ((multibagger_score_two_dim moatStock).2.2).length = 22 := by
  refine ⟨fun stock hnd k v hmem => ?_, ?_, ?_⟩
  · rw [breakdown_eq]
    exact lookup_applyQual_nodup _ _ _ _ hnd hmem
  · rfl
  · rfl

theorem qualitative_passthrough_witness :
    ((multibagger_score_two_dim moatStock).2.2).lookup "moat" = some 4 :=
  qualitative_passthrough.1 moatStock (by simp [moatStock]) "moat" 4 (by simp [moatStock])

/-- C10: a qualitative override whose key is a quantitative factor name
overwrites that factor's score in place (the breakdown keeps exactly one entry
under the name), and the breakdown length is 21 plus the number of qualitative
keys that do not collide with quantitative factor names. -/
theorem qualitative_override_collision (stock : Stock)
    (hnd : (stock.qualitative.map Prod.fst).Nodup) :
    (∀ (k : String) (v : ℚ), (k, v) ∈ stock.qualitative → k ∈ quantNames →
        ((multibagger_score_two_dim stock).2.2).lookup k = some v ∧
        (((multibagger_score_two_dim stock).2.2).map Prod.fst).count k = 1) ∧
    ((multibagger_score_two_dim stock).2.2).length =
      21 + (stock.qualitative.filter (fun p => !(quantNames.contains p.1))).length := by
  constructor
  · intro k v hmem hk
    refine ⟨?_, ?_⟩
    · rw [breakdown_eq]
      exact lookup_applyQual_nodup _ _ _ _ hnd hmem
    · rw [breakdown_eq, count_keys_applyQual _ _ _ (by rw [quantScores_keys]; exact hk),
        quantScores_keys]
      exact List.count_eq_one_of_mem (by decide) hk
  · rw [breakdown_eq, length_applyQual_nodup _ _ hnd, quantScores_length]
    simp only [quantScores_keys]

theorem qualitative_override_collision_witness :
    ((multibagger_score_two_dim overrideAndNewStock).2.2).lookup "market_cap" = some 1 ∧
    (((multibagger_score_two_dim overrideAndNewStock).2.2).map Prod.fst).count "market_cap" = 1 ∧
    ((multibagger_score_two_dim overrideAndNewStock).2.2).length = 22 := by
  have h := qualitative_override_collision overrideAndNewStock (by simp [overrideAndNewStock])
  have h1 := h.1 "market_cap" 1 (by simp [overrideAndNewStock]) (by decide)
  refine ⟨h1.1, h1.2, ?_⟩
  rw [h.2]
  rfl

end StockScanner
